import Mathlib

/-
  Verification development for the NetSimulyzer core: the reversible
  event-application model on scene entities (src/group/node/Node.cpp),
  the streaming JSON value assembler (src/parser/handler/JsonHandler.h),
  the section dispatcher of the decoder, the load entry point
  (src/window/mainWindow.cpp) and building mesh allocation
  (src/render/renderer/Renderer.cpp).

  Numeric values (C++ float / double) are embedded as rationals: every
  operation on the paths verified here is either a copy or exact
  arithmetic on copied values, so exact equality of rationals mirrors
  bit-identical equality of the stored floats.
-/

namespace NetSimulyzer

/-- Three-component vector, standing in for glm vec3 and for the ns-3
coordinate triples of the parser records. -/
structure Vec3 where
  x : ℚ
  y : ℚ
  z : ℚ
deriving DecidableEq, Repr

instance : Add Vec3 := ⟨fun a b => ⟨a.x + b.x, a.y + b.y, a.z + b.z⟩⟩

theorem Vec3.add_def (a b : Vec3) : a + b = ⟨a.x + b.x, a.y + b.y, a.z + b.z⟩ := rfl

/-- Color as stored on the render model (normalized components). -/
structure RenderColor where
  r : ℚ
  g : ℚ
  b : ℚ
deriving DecidableEq, Repr

/-- Color as decoded from the file (byte components). -/
structure ParserColor where
  red : ℕ
  green : ℕ
  blue : ℕ
deriving DecidableEq, Repr

/-- Modelled from the spec: conversion.h is not under src/. The ns-3
coordinate system is Z-up while the render coordinate system is Y-up, so
the conversion swaps the second and third components; this convention is
visible in Renderer.cpp where the building room count along ns-3 Y is
applied to the render z axis. The exact permutation is irrelevant to the
theorems below, which only require it to be a fixed function. -/
def toRenderCoordinate (c : Vec3) : Vec3 := ⟨c.x, c.z, c.y⟩

/-- Modelled from the spec: conversion.h is not under src/. Byte color
components are normalized to the unit interval for the render model. The
theorems below only require this to be a fixed function. -/
def toRenderColor (c : ParserColor) : RenderColor :=
  ⟨(c.red : ℚ) / 255, (c.green : ℚ) / 255, (c.blue : ℚ) / 255⟩

/-- Modelled from the spec: conversion.h is not under src/. The scale
array is passed through componentwise. -/
def toRenderArray (c : Vec3) : Vec3 := ⟨c.x, c.y, c.z⟩

/-- Modelled from the spec: the Model class is not under src/ (only its
callers in Node.cpp are). Its setters and getters referenced by Node.cpp
(setPosition/getPosition, setRotate/getRotate, setBaseColor/getBaseColor/
unsetBaseColor, the highlight analogues, setScale/getScale, getBounds,
setTargetHeightScale) are plain accessors of the state captured here:
setRotate stores its three arguments in order and getRotate returns the
stored triple. -/
structure Model where
  position : Vec3
  rotate : Vec3
  baseColor : Option RenderColor
  highlightColor : Option RenderColor
  scale : Vec3
  boundsMin : Vec3
  boundsMax : Vec3
  targetHeightScale : ℚ
deriving DecidableEq, Repr

/-- The parser::Node record decoded from the scenario file. -/
structure ParserNode where
  id : ℕ
  position : Vec3
  orientation : Vec3
  offset : Vec3
  scale : Vec3
  height : Option ℚ
  baseColor : Option ParserColor
  highlightColor : Option ParserColor
  visible : Bool
deriving DecidableEq, Repr

/-- The parser::MoveEvent payload used by Node handlers. -/
structure MoveEvent where
  nodeId : ℕ
  time : ℚ
  targetPosition : Vec3
deriving DecidableEq, Repr

/-- The undo::MoveEvent produced by the forward apply: the pre-mutation
render position plus the original event. -/
structure UndoMoveEvent where
  position : Vec3
  event : MoveEvent
deriving DecidableEq, Repr

/-- The parser::NodeOrientationChangeEvent payload. -/
structure NodeOrientationChangeEvent where
  nodeId : ℕ
  time : ℚ
  targetOrientation : Vec3
deriving DecidableEq, Repr

/-- The undo::NodeOrientationChangeEvent produced by the forward apply. -/
structure UndoNodeOrientationChangeEvent where
  orientation : Vec3
  event : NodeOrientationChangeEvent
deriving DecidableEq, Repr

/-- The color kind selector of parser::NodeColorChangeEvent. -/
inductive ColorType where
  | base
  | highlight
deriving DecidableEq, Repr

/-- The parser::NodeColorChangeEvent payload; an absent targetColor
means the color is to be cleared. -/
structure NodeColorChangeEvent where
  nodeId : ℕ
  time : ℚ
  colorType : ColorType
  targetColor : Option ParserColor
deriving DecidableEq, Repr

/-- The undo::NodeColorChangeEvent produced by the forward apply. -/
structure UndoNodeColorChangeEvent where
  originalColor : Option RenderColor
  event : NodeColorChangeEvent
deriving DecidableEq, Repr

/-- A scene Node: the render model, the decoded ns-3 record, the fixed
render-coordinate offset computed at construction, and the identifiers
of the wired links registered through addWiredLink. -/
structure Node where
  model : Model
  ns3Node : ParserNode
  offset : Vec3
  wiredLinks : List ℕ
deriving DecidableEq, Repr

/-- Node constructor, Node.cpp lines 43 to 61: the offset is the
converted ns-3 offset; the position is the converted ns-3 position plus
that offset; the rotation stores components 0, 2, 1 of the ns-3
orientation; an explicit height sets the target height scale from the
model bounds; then scale and the optional colors are applied. -/
def Node.create (model : Model) (ns3Node : ParserNode) : Node :=
  let offset := toRenderCoordinate ns3Node.offset
  let m1 := { model with
    position := toRenderCoordinate ns3Node.position + offset,
    rotate := ⟨ns3Node.orientation.x, ns3Node.orientation.z, ns3Node.orientation.y⟩ }
  let m2 := match ns3Node.height with
    | some h =>
      let height := abs (m1.boundsMax.y - m1.boundsMin.y)
      { m1 with targetHeightScale := h / height }
    | none => m1
  let m3 := { m2 with scale := toRenderArray ns3Node.scale }
  let m4 := match ns3Node.baseColor with
    | some c => { m3 with baseColor := some (toRenderColor c) }
    | none => m3
  let m5 := match ns3Node.highlightColor with
    | some c => { m4 with highlightColor := some (toRenderColor c) }
    | none => m4
  { model := m5, ns3Node := ns3Node, offset := offset, wiredLinks := [] }

/-- Node getCenter, Node.cpp lines 75 to 81: the model position with the
half extent of the (possibly overridden) model height, scaled by the y
scale, added to the y component. -/
def Node.getCenter (n : Node) : Vec3 :=
  let position := n.model.position
  { position with
    y := position.y +
      n.ns3Node.height.getD (n.model.boundsMax.y - n.model.boundsMin.y) * n.model.scale.y / 2 }

/-- One wired-link endpoint update: the link that was told, the id of
the node that moved and the center position it reported. -/
structure WiredLinkNotice where
  link : ℕ
  nodeId : ℕ
  center : Vec3
deriving DecidableEq, Repr

/-- Result of the forward move apply: the mutated node, the undo event
it returned and the wired-link updates it sent. -/
structure MoveResult where
  node : Node
  undo : UndoMoveEvent
  notified : List WiredLinkNotice
deriving DecidableEq, Repr

/-- Result of the undo move apply. -/
structure UndoMoveResult where
  node : Node
  notified : List WiredLinkNotice
deriving DecidableEq, Repr

/-- Node handle of parser::MoveEvent, Node.cpp lines 88 to 101: capture
the current render position into the undo event, set the position to the
converted target plus the fixed offset, then tell every wired link the
freshly computed center. -/
def Node.handleMove (n : Node) (e : MoveEvent) : MoveResult :=
  let undo : UndoMoveEvent := { position := n.model.position, event := e }
  let target := toRenderCoordinate e.targetPosition + n.offset
  let n1 := { n with model := { n.model with position := target } }
  { node := n1,
    undo := undo,
    notified := n1.wiredLinks.map fun link =>
      { link := link, nodeId := n1.ns3Node.id, center := n1.getCenter } }

/-- Node handle of undo::MoveEvent, Node.cpp lines 137 to 143: restore
the recorded render position directly (no conversion, no offset), then
tell every wired link the freshly computed center. -/
def Node.handleUndoMove (n : Node) (e : UndoMoveEvent) : UndoMoveResult :=
  let n1 := { n with model := { n.model with position := e.position } }
  { node := n1,
    notified := n1.wiredLinks.map fun link =>
      { link := link, nodeId := n1.ns3Node.id, center := n1.getCenter } }

/-- Node handle of parser::NodeOrientationChangeEvent, Node.cpp lines
103 to 111: capture the current stored rotation into the undo event,
then store components 0, 2 and negated 1 of the target orientation. -/
def Node.handleOrientation (n : Node) (e : NodeOrientationChangeEvent) :
    Node × UndoNodeOrientationChangeEvent :=
  let undo : UndoNodeOrientationChangeEvent := { orientation := n.model.rotate, event := e }
  let n1 := { n with model := { n.model with
    rotate := ⟨e.targetOrientation.x, e.targetOrientation.z, -e.targetOrientation.y⟩ } }
  (n1, undo)

/-- Node handle of undo::NodeOrientationChangeEvent, Node.cpp lines 145
to 147: store components 0, 2, 1 of the captured rotation. -/
def Node.handleUndoOrientation (n : Node) (e : UndoNodeOrientationChangeEvent) : Node :=
  { n with model := { n.model with
    rotate := ⟨e.orientation.x, e.orientation.z, e.orientation.y⟩ } }

/-- Node handle of parser::NodeColorChangeEvent, Node.cpp lines 113 to
135: capture the current color of the selected kind into the undo event,
then clear the color when the target is absent, or set the converted
target color. -/
def Node.handleColorChange (n : Node) (e : NodeColorChangeEvent) :
    Node × UndoNodeColorChangeEvent :=
  match e.colorType with
  | ColorType.base =>
    let undo : UndoNodeColorChangeEvent := { originalColor := n.model.baseColor, event := e }
    match e.targetColor with
    | none => ({ n with model := { n.model with baseColor := none } }, undo)
    | some c => ({ n with model := { n.model with baseColor := some (toRenderColor c) } }, undo)
  | ColorType.highlight =>
    let undo : UndoNodeColorChangeEvent := { originalColor := n.model.highlightColor, event := e }
    match e.targetColor with
    | none => ({ n with model := { n.model with highlightColor := none } }, undo)
    | some c => ({ n with model := { n.model with highlightColor := some (toRenderColor c) } }, undo)

/-- Node handle of undo::NodeColorChangeEvent, Node.cpp lines 149 to
161: restore the captured color of the selected kind, clearing it when
the capture was absent. -/
def Node.handleUndoColorChange (n : Node) (e : UndoNodeColorChangeEvent) : Node :=
  match e.event.colorType with
  | ColorType.base =>
    match e.originalColor with
    | some c => { n with model := { n.model with baseColor := some c } }
    | none => { n with model := { n.model with baseColor := none } }
  | ColorType.highlight =>
    match e.originalColor with
    | some c => { n with model := { n.model with highlightColor := some c } }
    | none => { n with model := { n.model with highlightColor := none } }

/-- A JSON-like value, the tagged union reconstructed by the value
assembler (nlohmann json in the source). Objects are ordered field
lists with unique keys, maintained by objInsert. -/
inductive JValue where
  | null
  | bool (b : Bool)
  | int (n : ℤ)
  | uint (n : ℕ)
  | float (q : ℚ)
  | str (s : String)
  | arr (elems : List JValue)
  | obj (fields : List (String × JValue))

/-- Whether the value is an in-progress array (is_array in the source). -/
def JValue.isArray : JValue → Bool
  | .arr _ => true
  | _ => false

/-- Whether the value is null (is_null in the source). -/
def JValue.isNull : JValue → Bool
  | .null => true
  | _ => false

/-- Whether the value is an in-progress object (is_object in the source). -/
def JValue.isObject : JValue → Bool
  | .obj _ => true
  | _ => false

/-- Map update on an object field list: overwrite the value of the key
when present, otherwise append the binding. This is the observable
behavior of indexed assignment on a json object. -/
def objInsert (fields : List (String × JValue)) (k : String) (v : JValue) :
    List (String × JValue) :=
  match fields with
  | [] => [(k, v)]
  | (k1, v1) :: rest => if k1 = k then (k, v) :: rest else (k1, v1) :: objInsert rest k v

/-- A frame of the value-assembly stack: JsonHandler.h lines 75 to 78. -/
structure JsonFrame where
  key : String
  value : JValue

/-- The fatal outcomes of the assembler. Every one aborts the whole
decode: the source reaches std::abort in the first three cases, and in
the poppedEmpty case it would call top on an empty std::stack, which we
also embed as a fatal format error. -/
inductive FormatError where
  | stackEmpty
  | topNotNull
  | poppedEmpty
  | parentNotObject
deriving DecidableEq, Repr

/-- JsonHandler handle for a primitive value, JsonHandler.h lines 105 to
138, with the stack as a list whose head is the top. An empty stack is
fatal; a top frame holding an in-progress array receives the value by
append; otherwise the top frame must hold a pending key with null value:
it is popped and the value is stored under its key in the new top frame,
which must hold an in-progress object; anything else is fatal. -/
def JsonHandler.handle (value : JValue) (jsonStack : List JsonFrame) :
    Except FormatError (List JsonFrame) :=
  match jsonStack with
  | [] => .error .stackEmpty
  | top :: rest =>
    match top.value with
    | .arr elems => .ok ({ top with value := .arr (elems ++ [value]) } :: rest)
    | .null =>
      match rest with
      | [] => .error .poppedEmpty
      | parent :: rest2 =>
        match parent.value with
        | .obj fields =>
          .ok ({ parent with value := .obj (objInsert fields top.key value) } :: rest2)
        | _ => .error .parentNotObject
    | _ => .error .topNotNull

/-- The callbacks the streaming parser delivers to the assembler; the
value case stands for all six primitive callbacks. -/
inductive Callback where
  | value (v : JValue)
  | key (k : String)
  | startObject
  | startArray
  | endObject
  | endArray

/-- State of one decode: the frame stack plus the completed top-level
values handed off so far (the material of the Scenario Store). -/
structure DecodeState where
  stack : List JsonFrame
  completed : List JValue

/-- Modelled from the spec: the bodies of start_object and start_array
are in JsonHandler.cpp, which is not under src/. Per the spec a new
frame holding the empty container is pushed, its key taken from the
enclosing pending-key frame if one is on top (that frame is absorbed). -/
def openContainer (v : JValue) (stack : List JsonFrame) : List JsonFrame :=
  match stack with
  | ⟨k, .null⟩ :: rest => ⟨k, v⟩ :: rest
  | s => ⟨"", v⟩ :: s

/-- Modelled from the spec: merging a completed container into its
parent frame follows the same rule as a primitive merge: appended when
the parent holds an in-progress array, stored under the completed key
when the parent holds an in-progress object, fatal otherwise. -/
def mergeValue (k : String) (v : JValue) (stack : List JsonFrame) :
    Except FormatError (List JsonFrame) :=
  match stack with
  | [] => .error .stackEmpty
  | parent :: rest =>
    match parent.value with
    | .arr elems => .ok ({ parent with value := .arr (elems ++ [v]) } :: rest)
    | .obj fields => .ok ({ parent with value := .obj (objInsert fields k v) } :: rest)
    | _ => .error .parentNotObject

/-- Modelled from the spec: the bodies of end_object and end_array are
in JsonHandler.cpp, which is not under src/. A close arriving on an
empty stack is a stack underflow and fatal; a close of the last frame
hands the completed value off; otherwise the completed frame is popped
and merged into the new top. -/
def closeContainer (st : DecodeState) : Except FormatError DecodeState :=
  match st.stack with
  | [] => .error .stackEmpty
  | [top] => .ok { stack := [], completed := st.completed ++ [top.value] }
  | top :: rest =>
    match mergeValue top.key top.value rest with
    | .error err => .error err
    | .ok s => .ok { st with stack := s }

/-- One decode step: primitive values go through the handle member from
the source; keys push a pending frame with null value; opens and closes
are the spec-modelled container operations. -/
def stepCallback (st : DecodeState) : Callback → Except FormatError DecodeState
  | .value v =>
    match JsonHandler.handle v st.stack with
    | .error err => .error err
    | .ok s => .ok { st with stack := s }
  | .key k => .ok { st with stack := ⟨k, .null⟩ :: st.stack }
  | .startObject => .ok { st with stack := openContainer (.obj []) st.stack }
  | .startArray => .ok { st with stack := openContainer (.arr []) st.stack }
  | .endObject => closeContainer st
  | .endArray => closeContainer st

/-- Run a decode over a callback list; the first fatal error aborts the
whole run. -/
def runDecode (st : DecodeState) : List Callback → Except FormatError DecodeState
  | [] => .ok st
  | c :: rest =>
    match stepCallback st c with
    | .error err => .error err
    | .ok st2 => runDecode st2 rest

/-- The store produced by a finished decode: the completed values on
success, nothing at all on a fatal error. -/
def finishDecode : Except FormatError DecodeState → Option (List JValue)
  | .ok st => some st.completed
  | .error _ => none

/-- The document sections, JsonHandler.h line 51. -/
inductive Section where
  | none
  | buildings
  | configuration
  | decorations
  | events
  | nodes
  | series
  | streams
deriving DecidableEq, Repr

/-- The recognized top-level section keys of the document. -/
def sectionNames : List String :=
  ["buildings", "configuration", "decorations", "events", "nodes", "series", "streams"]

/-- Modelled from the spec: isSection is declared in JsonHandler.h
lines 56 to 65 but defined in JsonHandler.cpp, which is not under src/.
It matches the key case-sensitively against the recognized section
names and yields Section.none otherwise. -/
def isSection (key : String) : Section :=
  if key = "buildings" then .buildings
  else if key = "configuration" then .configuration
  else if key = "decorations" then .decorations
  else if key = "events" then .events
  else if key = "nodes" then .nodes
  else if key = "series" then .series
  else if key = "streams" then .streams
  else .none

/-- State of the section dispatcher: the current section, the nesting
depth inside it (JsonHandler.h lines 70 and 94) and the tags of the
records emitted so far. -/
structure DispatcherState where
  currentSection : Section
  sectionDepth : ℤ
  records : List Section
deriving DecidableEq, Repr

/-- The callbacks as the section dispatcher sees them: keys at document
root are distinguished from keys nested deeper, since only root keys
decide section transitions. -/
inductive DispatchCallback where
  | rootKey (k : String)
  | innerKey (k : String)
  | openContainerCb
  | closeContainerCb
  | primitive
deriving DecidableEq, Repr

/-- Whether the callback is a root-level key. -/
def DispatchCallback.isRootKey : DispatchCallback → Bool
  | .rootKey _ => true
  | _ => false

/-- Modelled from the spec: the key, start and end callback bodies are
in JsonHandler.cpp, which is not under src/. A root key sets the current
section through isSection and resets the depth; keys below the root do
not affect dispatcher state; while the current section is not none every
open increments the depth and every close decrements it, a close that
returns the depth to one emitting one record for the current section;
while the current section is none, depth tracking is inactive. -/
def dispatchStep (st : DispatcherState) : DispatchCallback → DispatcherState
  | .rootKey k => { st with currentSection := isSection k, sectionDepth := 0 }
  | .innerKey _ => st
  | .primitive => st
  | .openContainerCb =>
    if st.currentSection = Section.none then st
    else { st with sectionDepth := st.sectionDepth + 1 }
  | .closeContainerCb =>
    if st.currentSection = Section.none then st
    else
      let d := st.sectionDepth - 1
      if d = 1 then { st with sectionDepth := d, records := st.records ++ [st.currentSection] }
      else { st with sectionDepth := d }

/-- Run the dispatcher over a callback list. -/
def dispatchRun (st : DispatcherState) (cbs : List DispatchCallback) : DispatcherState :=
  cbs.foldl dispatchStep st

/-- The observable state of the main window touched by load and
finishLoading: the loading flag, the transient status bar messages, the
permanent status label, the enabled state of the load action, counters
for the render and node widget resets, and the startLoading emissions
with their file names, in order. -/
structure MainWindowState where
  loading : Bool
  statusMessages : List String
  statusLabel : String
  actionLoadEnabled : Bool
  renderResets : ℕ
  nodeWidgetResets : ℕ
  emittedStartLoading : List String
deriving DecidableEq, Repr

/-- MainWindow load, mainWindow.cpp lines 101 to 121, with the file
dialog result passed in (an empty string when the dialog was canceled).
An empty file name returns early; when the loading flag is already set
the status bar shows a message, and then in every non-empty case the
flag is set, the load action disabled, the label updated, the render and
node widgets reset and startLoading emitted with the file name. -/
def MainWindow.load (st : MainWindowState) (fileName : String) : MainWindowState :=
  if fileName = "" then st
  else
    let st1 :=
      if st.loading then
        { st with statusMessages := st.statusMessages ++ ["Already loading scenario!"] }
      else st
    { st1 with
      loading := true,
      actionLoadEnabled := false,
      statusLabel := "Loading scenario: " ++ fileName,
      renderResets := st1.renderResets + 1,
      nodeWidgetResets := st1.nodeWidgetResets + 1,
      emittedStartLoading := st1.emittedStartLoading ++ [fileName] }

/-- The parser::Building fields used by mesh allocation: the two ns-3
corner coordinates and the floor and room counts. -/
structure BuildingRec where
  min : Vec3
  max : Vec3
  floors : ℕ
  roomsX : ℕ
  roomsY : ℕ
deriving DecidableEq, Repr

/-- The geometry side of Building RenderInfo: the flat vertex component
list, the index list and the recorded index buffer size. -/
structure BuildingRenderInfo where
  vertices : List ℚ
  indices : List ℕ
  ibo_size : ℕ
deriving DecidableEq, Repr

/-- One interior quad of the building index pattern, Renderer.cpp lines
163 to 164: the four new vertices as two triangles. -/
def quadIndices (last : ℕ) : List ℕ :=
  [last + 1, last + 2, last + 3, last + 4, last + 1, last + 3]

/-- One of the three interior loops of building allocation: count
iterations starting at index i, each appending the twelve vertex
components produced by f and one quad of indices, advancing the last
vertex index by four. -/
def buildingQuads (f : ℕ → List ℚ) (i : ℕ) (count : ℕ)
    (vs : List ℚ) (ix : List ℕ) (last : ℕ) : List ℚ × List ℕ × ℕ :=
  match count with
  | 0 => (vs, ix, last)
  | c + 1 => buildingQuads f (i + 1) c (vs ++ f i) (ix ++ quadIndices last) (last + 4)

/-- The eight corner vertices of the building box, Renderer.cpp lines
119 to 128, as a flat component list. -/
def buildingBaseVertices (minv maxv : Vec3) : List ℚ :=
  [minv.x, minv.y, minv.z,
   maxv.x, minv.y, minv.z,
   maxv.x, minv.y, maxv.z,
   minv.x, minv.y, maxv.z,
   minv.x, maxv.y, minv.z,
   maxv.x, maxv.y, minv.z,
   maxv.x, maxv.y, maxv.z,
   minv.x, maxv.y, maxv.z]

/-- The twelve triangles of the building box, Renderer.cpp lines 129 to
142. -/
def buildingBaseIndices : List ℕ :=
  [0, 1, 2,  3, 0, 2,  1, 5, 6,  2, 1, 6,  4, 5, 6,  7, 4, 6,
   0, 4, 7,  3, 0, 7,  0, 1, 5,  4, 0, 5,  3, 2, 6,  7, 3, 6]

/-- The four vertices of one interior floor quad, Renderer.cpp lines
155 to 160. -/
def floorQuadVerts (minv maxv : Vec3) (floor_height : ℚ) (currentFloor : ℕ) : List ℚ :=
  let currentHeight := floor_height * (currentFloor : ℚ) + minv.y
  [minv.x, currentHeight, minv.z,
   maxv.x, currentHeight, minv.z,
   maxv.x, currentHeight, maxv.z,
   minv.x, currentHeight, maxv.z]

/-- The four vertices of one interior wall quad along render x,
Renderer.cpp lines 175 to 180. -/
def wallXQuadVerts (minv maxv : Vec3) (roomLengthX : ℚ) (currentRoom : ℕ) : List ℚ :=
  let currentWallPosition := roomLengthX * (currentRoom : ℚ) + minv.x
  [currentWallPosition, minv.y, minv.z,
   currentWallPosition, maxv.y, minv.z,
   currentWallPosition, maxv.y, maxv.z,
   currentWallPosition, minv.y, maxv.z]

/-- The four vertices of one interior wall quad along render z,
Renderer.cpp lines 192 to 197. -/
def wallYQuadVerts (minv maxv : Vec3) (roomLengthY : ℚ) (currentRoom : ℕ) : List ℚ :=
  let currentWallPosition := roomLengthY * (currentRoom : ℚ) + minv.z
  [minv.x, minv.y, currentWallPosition,
   maxv.x, minv.y, currentWallPosition,
   maxv.x, maxv.y, currentWallPosition,
   minv.x, maxv.y, currentWallPosition]

/-- Renderer allocate for a parser::Building, Renderer.cpp lines 112 to
220, restricted to the geometry it computes (the GL buffer ids are
opaque handles). The box corners give eight vertices and thirty-six
indices; then one quad is added per interior floor, per interior wall
along render x, and per interior wall along render z, each loop running
from one to strictly below the respective count. -/
def Renderer.allocateBuilding (b : BuildingRec) : BuildingRenderInfo :=
  let min := toRenderCoordinate b.min
  let max := toRenderCoordinate b.max
  let floor_height := (abs max.y - abs min.y) / (b.floors : ℚ)
  let r1 := buildingQuads (floorQuadVerts min max floor_height)
    1 (b.floors - 1) (buildingBaseVertices min max) buildingBaseIndices 7
  let roomLengthX := (max.x - min.x) / (b.roomsX : ℚ)
  let r2 := buildingQuads (wallXQuadVerts min max roomLengthX)
    1 (b.roomsX - 1) r1.1 r1.2.1 r1.2.2
  let roomLengthY := (max.z - min.z) / (b.roomsY : ℚ)
  let r3 := buildingQuads (wallYQuadVerts min max roomLengthY)
    1 (b.roomsY - 1) r2.1 r2.2.1 r2.2.2
  { vertices := r3.1, indices := r3.2.1, ibo_size := r3.2.1.length }

/-- Sample model state used by the concrete evaluations below. -/
def sampleModel : Model :=
  { position := ⟨0, 0, 0⟩, rotate := ⟨0, 0, 0⟩, baseColor := none, highlightColor := none,
    scale := ⟨1, 1, 1⟩, boundsMin := ⟨0, 0, 0⟩, boundsMax := ⟨1, 1, 1⟩, targetHeightScale := 1 }

/-- Sample decoded node whose ns-3 orientation has distinct second and
third components, so its stored rotation is the triple zero, one, two. -/
def sampleParserNode : ParserNode :=
  { id := 0, position := ⟨0, 0, 0⟩, orientation := ⟨0, 2, 1⟩, offset := ⟨0, 0, 0⟩,
    scale := ⟨1, 1, 1⟩, height := none, baseColor := none, highlightColor := none,
    visible := true }

/-- Sample decoded node carrying a base color. -/
def sampleColoredParserNode : ParserNode :=
  { sampleParserNode with baseColor := some ⟨204, 0, 0⟩ }

/-- Sample orientation change event. -/
def sampleOrientationEvent : NodeOrientationChangeEvent :=
  { nodeId := 0, time := 0, targetOrientation := ⟨0, 0, 0⟩ }

/-- C1: applying a forward MoveEvent to a Node and then applying the
undo MoveEvent it returned leaves the model position exactly equal to
its value immediately before the forward apply. -/
theorem move_then_undo_restores_position (n : Node) (e : MoveEvent) :
    ((n.handleMove e).node.handleUndoMove (n.handleMove e).undo).node.model.position
      = n.model.position := rfl

/-- C2: evaluation at a concrete reachable Node showing that applying a
forward NodeOrientationChangeEvent and then the undo event it returned
does not restore the model rotation: the undo handler re-applies the
component swap to a rotation that was captured in stored order, leaving
the second and third components transposed. -/
theorem orientation_undo_does_not_restore :
    (Node.create sampleModel sampleParserNode).model.rotate = ⟨0, 1, 2⟩ ∧
    (Node.handleUndoOrientation
        ((Node.create sampleModel sampleParserNode).handleOrientation sampleOrientationEvent).1
        ((Node.create sampleModel sampleParserNode).handleOrientation
          sampleOrientationEvent).2).model.rotate = ⟨0, 2, 1⟩ ∧
    (Node.handleUndoOrientation
        ((Node.create sampleModel sampleParserNode).handleOrientation sampleOrientationEvent).1
        ((Node.create sampleModel sampleParserNode).handleOrientation
          sampleOrientationEvent).2).model.rotate
      ≠ (Node.create sampleModel sampleParserNode).model.rotate := by
  refine ⟨rfl, rfl, ?_⟩
  decide

/-- C3: a NodeColorChangeEvent with an absent target clears the color of
the selected kind, and applying the undo event returned by any forward
color apply restores both the base and the highlight color fields
exactly, whether the original color was present or absent. -/
theorem color_change_clear_and_undo (n : Node) (e : NodeColorChangeEvent) :
    (e.colorType = ColorType.base → e.targetColor = none →
      (n.handleColorChange e).1.model.baseColor = none) ∧
    (e.colorType = ColorType.highlight → e.targetColor = none →
      (n.handleColorChange e).1.model.highlightColor = none) ∧
    (Node.handleUndoColorChange (n.handleColorChange e).1
        (n.handleColorChange e).2).model.baseColor = n.model.baseColor ∧
    (Node.handleUndoColorChange (n.handleColorChange e).1
        (n.handleColorChange e).2).model.highlightColor = n.model.highlightColor := by
  obtain ⟨nid, t, ct, tc⟩ := e
  obtain ⟨m, ns3, off, links⟩ := n
  obtain ⟨pos, rot, bc, hc, sc, bmin, bmax, ths⟩ := m
  cases ct <;> cases tc <;> cases bc <;> cases hc <;>
    simp [Node.handleColorChange, Node.handleUndoColorChange]

/-- Witness for C3: a node constructed with a base color receives a
base color clear event; the color is cleared and the undo restores it. -/
theorem color_change_clear_and_undo_witness :
    ((Node.create sampleModel sampleColoredParserNode).handleColorChange
        ⟨0, 0, ColorType.base, none⟩).1.model.baseColor = none ∧
    (Node.handleUndoColorChange
        ((Node.create sampleModel sampleColoredParserNode).handleColorChange
          ⟨0, 0, ColorType.base, none⟩).1
        ((Node.create sampleModel sampleColoredParserNode).handleColorChange
          ⟨0, 0, ColorType.base, none⟩).2).model.baseColor
      = (Node.create sampleModel sampleColoredParserNode).model.baseColor :=
  ⟨(color_change_clear_and_undo (Node.create sampleModel sampleColoredParserNode)
      ⟨0, 0, ColorType.base, none⟩).1 rfl rfl,
   (color_change_clear_and_undo (Node.create sampleModel sampleColoredParserNode)
      ⟨0, 0, ColorType.base, none⟩).2.2.1⟩

/-- C4: case analysis of the assembler on a primitive value: an
in-progress array on top receives the value by append with the rest of
the stack unchanged; a pending key with null value on top of an
in-progress object is popped and the value stored under the key in the
parent; every other stack configuration is a fatal format error. -/
theorem handle_primitive_cases (v : JValue) :
    (∀ k elems rest, JsonHandler.handle v (⟨k, .arr elems⟩ :: rest)
        = .ok (⟨k, .arr (elems ++ [v])⟩ :: rest)) ∧
    (∀ k pk fields rest, JsonHandler.handle v (⟨k, .null⟩ :: ⟨pk, .obj fields⟩ :: rest)
        = .ok (⟨pk, .obj (objInsert fields k v)⟩ :: rest)) ∧
    (∀ top rest, top.value.isArray = false → top.value.isNull = false →
        JsonHandler.handle v (top :: rest) = .error .topNotNull) ∧
    (∀ top parent rest, top.value = .null → parent.value.isObject = false →
        JsonHandler.handle v (top :: parent :: rest) = .error .parentNotObject) ∧
    (∀ k, JsonHandler.handle v [⟨k, JValue.null⟩] = .error .poppedEmpty) ∧
    JsonHandler.handle v [] = .error .stackEmpty := by
  refine ⟨fun k elems rest => rfl, fun k pk fields rest => rfl, ?_, ?_, fun k => rfl, rfl⟩
  · intro top rest ha hn
    obtain ⟨k, val⟩ := top
    cases val <;> simp_all [JValue.isArray, JValue.isNull, JsonHandler.handle]
  · intro top parent rest ht hp
    obtain ⟨k, val⟩ := top
    obtain ⟨pk, pval⟩ := parent
    simp only at ht
    subst ht
    cases pval <;> simp_all [JValue.isObject, JsonHandler.handle]

/-- Witness for C4: each case of the analysis evaluated at a concrete
stack. -/
theorem handle_primitive_cases_witness :
    (JsonHandler.handle (.int 5) [⟨"a", .arr []⟩] = .ok [⟨"a", .arr [.int 5]⟩]) ∧
    (JsonHandler.handle (.int 5) [⟨"k", .null⟩, ⟨"", .obj []⟩]
        = .ok [⟨"", .obj [("k", .int 5)]⟩]) ∧
    (JsonHandler.handle (.int 5) [⟨"k", .str "x"⟩] = .error .topNotNull) ∧
    (JsonHandler.handle (.int 5) [⟨"k", .null⟩, ⟨"", .str "x"⟩] = .error .parentNotObject) ∧
    (JsonHandler.handle (.int 5) [⟨"k", .null⟩] = .error .poppedEmpty) ∧
    (JsonHandler.handle (.int 5) [] = .error .stackEmpty) :=
  ⟨(handle_primitive_cases (.int 5)).1 "a" [] [],
   (handle_primitive_cases (.int 5)).2.1 "k" "" [] [],
   (handle_primitive_cases (.int 5)).2.2.1 ⟨"k", .str "x"⟩ [] rfl rfl,
   (handle_primitive_cases (.int 5)).2.2.2.1 ⟨"k", .null⟩ ⟨"", .str "x"⟩ [] rfl rfl,
   (handle_primitive_cases (.int 5)).2.2.2.2.1 "k",
   (handle_primitive_cases (.int 5)).2.2.2.2.2⟩

/-- C5: a primitive value or a close callback arriving while the frame
stack is empty makes the whole decode return a fatal format error, so
finishing the decode yields no store at all. -/
theorem underflow_aborts_decode (st : DecodeState) (cbs : List Callback) (h : st.stack = []) :
    (∀ v, runDecode st (Callback.value v :: cbs) = .error FormatError.stackEmpty ∧
      finishDecode (runDecode st (Callback.value v :: cbs)) = none) ∧
    (runDecode st (Callback.endObject :: cbs) = .error FormatError.stackEmpty ∧
      finishDecode (runDecode st (Callback.endObject :: cbs)) = none) ∧
    (runDecode st (Callback.endArray :: cbs) = .error FormatError.stackEmpty ∧
      finishDecode (runDecode st (Callback.endArray :: cbs)) = none) := by
  obtain ⟨stack, completed⟩ := st
  simp only at h
  subst h
  exact ⟨fun v => ⟨rfl, rfl⟩, ⟨rfl, rfl⟩, ⟨rfl, rfl⟩⟩

/-- Witness for C5: a decode consisting of one unmatched close aborts
and produces no store. -/
theorem underflow_aborts_decode_witness :
    runDecode ⟨[], []⟩ [Callback.endObject] = .error FormatError.stackEmpty ∧
    finishDecode (runDecode ⟨[], []⟩ [Callback.endObject]) = none :=
  (underflow_aborts_decode ⟨[], []⟩ [] rfl).2.1

/-- C6: a root key outside the recognized section names leaves the
dispatcher in Section.none, and processing any content below it (which
contains no further root keys) perturbs neither the section, nor the
depth, nor the emitted records. -/
theorem unknown_root_key_isolated (st : DispatcherState) (k : String)
    (cbs : List DispatchCallback) (hk : k ∉ sectionNames) (hd : st.sectionDepth = 0)
    (hcbs : ∀ c ∈ cbs, c.isRootKey = false) :
    (dispatchRun (dispatchStep st (DispatchCallback.rootKey k)) cbs).currentSection
        = Section.none ∧
    (dispatchRun (dispatchStep st (DispatchCallback.rootKey k)) cbs).sectionDepth
        = st.sectionDepth ∧
    (dispatchRun (dispatchStep st (DispatchCallback.rootKey k)) cbs).records = st.records := by
  have hsec : isSection k = Section.none := by
    simp only [sectionNames, List.mem_cons, List.not_mem_nil, or_false, not_or] at hk
    obtain ⟨h1, h2, h3, h4, h5, h6, h7⟩ := hk
    simp [isSection, h1, h2, h3, h4, h5, h6, h7]
  have hstep : dispatchStep st (DispatchCallback.rootKey k)
      = { st with currentSection := Section.none, sectionDepth := 0 } := by
    simp [dispatchStep, hsec]
  have hfix : ∀ (cbs2 : List DispatchCallback) (st2 : DispatcherState),
      st2.currentSection = Section.none → (∀ c ∈ cbs2, c.isRootKey = false) →
      dispatchRun st2 cbs2 = st2 := by
    intro cbs2
    induction cbs2 with
    | nil => intro st2 _ _; rfl
    | cons c rest ih =>
      intro st2 hs hall
      have hc := hall c (List.mem_cons_self c rest)
      have hone : dispatchStep st2 c = st2 := by
        cases c with
        | rootKey k2 => simp [DispatchCallback.isRootKey] at hc
        | innerKey k2 => rfl
        | primitive => rfl
        | openContainerCb => simp [dispatchStep, hs]
        | closeContainerCb => simp [dispatchStep, hs]
      show (c :: rest).foldl dispatchStep st2 = st2
      rw [List.foldl_cons, hone]
      exact ih st2 hs fun c2 h2 => hall c2 (List.mem_cons_of_mem c h2)
  rw [hstep, hfix cbs _ rfl hcbs]
  exact ⟨rfl, hd.symm, rfl⟩

/-- Witness for C6: a root object under an unrecognized key, processed
from a state that was previously inside the nodes section, returns the
section to none and emits no record. -/
theorem unknown_root_key_isolated_witness :
    (dispatchRun (dispatchStep ⟨Section.nodes, 0, []⟩ (DispatchCallback.rootKey "metadata"))
        [DispatchCallback.openContainerCb, DispatchCallback.innerKey "a",
         DispatchCallback.primitive, DispatchCallback.closeContainerCb]).currentSection
      = Section.none ∧
    (dispatchRun (dispatchStep ⟨Section.nodes, 0, []⟩ (DispatchCallback.rootKey "metadata"))
        [DispatchCallback.openContainerCb, DispatchCallback.innerKey "a",
         DispatchCallback.primitive, DispatchCallback.closeContainerCb]).sectionDepth = 0 ∧
    (dispatchRun (dispatchStep ⟨Section.nodes, 0, []⟩ (DispatchCallback.rootKey "metadata"))
        [DispatchCallback.openContainerCb, DispatchCallback.innerKey "a",
         DispatchCallback.primitive, DispatchCallback.closeContainerCb]).records = [] :=
  unknown_root_key_isolated ⟨Section.nodes, 0, []⟩ "metadata"
    [DispatchCallback.openContainerCb, DispatchCallback.innerKey "a",
     DispatchCallback.primitive, DispatchCallback.closeContainerCb]
    (by decide) rfl (by decide)

/-- C7: evaluation showing that a load request arriving while the
loading flag is set is not rejected: the status bar shows the message,
but the render and node widgets are still reset and startLoading is
still emitted for the second file, because the guard lacks a return. -/
theorem load_while_loading_still_emits :
    ({ loading := true, statusMessages := [], statusLabel := "", actionLoadEnabled := false,
       renderResets := 0, nodeWidgetResets := 0,
       emittedStartLoading := [] } : MainWindowState).loading = true ∧
    (MainWindow.load
      { loading := true, statusMessages := [], statusLabel := "", actionLoadEnabled := false,
        renderResets := 0, nodeWidgetResets := 0, emittedStartLoading := [] }
      "second.json").emittedStartLoading = ["second.json"] ∧
    (MainWindow.load
      { loading := true, statusMessages := [], statusLabel := "", actionLoadEnabled := false,
        renderResets := 0, nodeWidgetResets := 0, emittedStartLoading := [] }
      "second.json").statusMessages = ["Already loading scenario!"] ∧
    (MainWindow.load
      { loading := true, statusMessages := [], statusLabel := "", actionLoadEnabled := false,
        renderResets := 0, nodeWidgetResets := 0, emittedStartLoading := [] }
      "second.json").renderResets = 1 := by
  refine ⟨rfl, ?_, ?_, ?_⟩ <;> decide

/-- C8: the forward move apply and the undo move apply both notify every
registered wired link with the node id and the center computed fresh
from the state the apply just produced. -/
theorem move_notifies_wired_links (n : Node) (e : MoveEvent) (u : UndoMoveEvent) :
    (n.handleMove e).notified
      = n.wiredLinks.map (fun link =>
          { link := link, nodeId := n.ns3Node.id, center := (n.handleMove e).node.getCenter }) ∧
    (n.handleUndoMove u).notified
      = n.wiredLinks.map (fun link =>
          { link := link, nodeId := n.ns3Node.id, center := (n.handleUndoMove u).node.getCenter }) :=
  ⟨rfl, rfl⟩

/-- C9: the fixed render offset is applied exactly once on every path
that sets the position: construction adds it to the converted ns-3
position, the forward move adds it to the converted target position, and
the undo apply restores the recorded render position without adding it
again. -/
theorem offset_applied_once (model : Model) (ns3 : ParserNode) (n : Node)
    (e : MoveEvent) (u : UndoMoveEvent) :
    (Node.create model ns3).model.position
        = toRenderCoordinate ns3.position + toRenderCoordinate ns3.offset ∧
    (Node.create model ns3).offset = toRenderCoordinate ns3.offset ∧
    (n.handleMove e).node.model.position = toRenderCoordinate e.targetPosition + n.offset ∧
    (n.handleUndoMove u).node.model.position = u.position := by
  refine ⟨?_, rfl, rfl, rfl⟩
  obtain ⟨id, pos, ori, off, sc, h, bc, hc, vis⟩ := ns3
  cases h <;> cases bc <;> cases hc <;> rfl

/-- Length bookkeeping for the interior quad loops of building
allocation: each iteration contributes twelve vertex components and six
indices. -/
theorem buildingQuads_lengths (f : ℕ → List ℚ) (hf : ∀ i, (f i).length = 12) :
    ∀ (count i : ℕ) (vs : List ℚ) (ix : List ℕ) (last : ℕ),
      (buildingQuads f i count vs ix last).1.length = vs.length + 12 * count ∧
      (buildingQuads f i count vs ix last).2.1.length = ix.length + 6 * count := by
  intro count
  induction count with
  | zero => intro i vs ix last; simp [buildingQuads]
  | succ c ih =>
    intro i vs ix last
    rw [buildingQuads]
    obtain ⟨h1, h2⟩ := ih (i + 1) (vs ++ f i) (ix ++ quadIndices last) (last + 4)
    constructor
    · rw [h1, List.length_append, hf i]; ring
    · rw [h2, List.length_append]
      have : (quadIndices last).length = 6 := rfl
      rw [this]; ring

/-- Composition of the three interior quad loops: total lengths grow by
twelve vertex components and six indices per interior quad. -/
theorem buildingQuads_chain_lengths (f1 f2 f3 : ℕ → List ℚ)
    (h1 : ∀ i, (f1 i).length = 12) (h2 : ∀ i, (f2 i).length = 12)
    (h3 : ∀ i, (f3 i).length = 12) (n1 n2 n3 : ℕ) (vs : List ℚ) (ix : List ℕ) (l : ℕ) :
    (buildingQuads f3 1 n3
        (buildingQuads f2 1 n2 (buildingQuads f1 1 n1 vs ix l).1
          (buildingQuads f1 1 n1 vs ix l).2.1 (buildingQuads f1 1 n1 vs ix l).2.2).1
        (buildingQuads f2 1 n2 (buildingQuads f1 1 n1 vs ix l).1
          (buildingQuads f1 1 n1 vs ix l).2.1 (buildingQuads f1 1 n1 vs ix l).2.2).2.1
        (buildingQuads f2 1 n2 (buildingQuads f1 1 n1 vs ix l).1
          (buildingQuads f1 1 n1 vs ix l).2.1
          (buildingQuads f1 1 n1 vs ix l).2.2).2.2).1.length
      = vs.length + 12 * (n1 + n2 + n3) ∧
    (buildingQuads f3 1 n3
        (buildingQuads f2 1 n2 (buildingQuads f1 1 n1 vs ix l).1
          (buildingQuads f1 1 n1 vs ix l).2.1 (buildingQuads f1 1 n1 vs ix l).2.2).1
        (buildingQuads f2 1 n2 (buildingQuads f1 1 n1 vs ix l).1
          (buildingQuads f1 1 n1 vs ix l).2.1 (buildingQuads f1 1 n1 vs ix l).2.2).2.1
        (buildingQuads f2 1 n2 (buildingQuads f1 1 n1 vs ix l).1
          (buildingQuads f1 1 n1 vs ix l).2.1
          (buildingQuads f1 1 n1 vs ix l).2.2).2.2).2.1.length
      = ix.length + 6 * (n1 + n2 + n3) := by
  obtain ⟨a1, b1⟩ := buildingQuads_lengths f1 h1 n1 1 vs ix l
  obtain ⟨a2, b2⟩ := buildingQuads_lengths f2 h2 n2 1 (buildingQuads f1 1 n1 vs ix l).1
    (buildingQuads f1 1 n1 vs ix l).2.1 (buildingQuads f1 1 n1 vs ix l).2.2
  obtain ⟨a3, b3⟩ := buildingQuads_lengths f3 h3 n3 1
    (buildingQuads f2 1 n2 (buildingQuads f1 1 n1 vs ix l).1
      (buildingQuads f1 1 n1 vs ix l).2.1 (buildingQuads f1 1 n1 vs ix l).2.2).1
    (buildingQuads f2 1 n2 (buildingQuads f1 1 n1 vs ix l).1
      (buildingQuads f1 1 n1 vs ix l).2.1 (buildingQuads f1 1 n1 vs ix l).2.2).2.1
    (buildingQuads f2 1 n2 (buildingQuads f1 1 n1 vs ix l).1
      (buildingQuads f1 1 n1 vs ix l).2.1 (buildingQuads f1 1 n1 vs ix l).2.2).2.2
  constructor
  · rw [a3, a2, a1]; ring
  · rw [b3, b2, b1]; ring

/-- C10: for a building with at least one floor and at least one room in
each direction, allocation produces exactly thirty-six plus six per
interior quad indices (recorded in ibo_size) and exactly eight plus four
per interior quad three-component vertices, the interior quads being one
per interior floor and one per interior wall along each axis. -/
theorem building_allocate_counts (b : BuildingRec)
    (hf : 1 ≤ b.floors) (hx : 1 ≤ b.roomsX) (hy : 1 ≤ b.roomsY) :
    (Renderer.allocateBuilding b).ibo_size
        = 36 + 6 * ((b.floors - 1) + (b.roomsX - 1) + (b.roomsY - 1)) ∧
    (Renderer.allocateBuilding b).indices.length
        = 36 + 6 * ((b.floors - 1) + (b.roomsX - 1) + (b.roomsY - 1)) ∧
    (Renderer.allocateBuilding b).vertices.length
        = 3 * (8 + 4 * ((b.floors - 1) + (b.roomsX - 1) + (b.roomsY - 1))) := by
  obtain ⟨bmin, bmax, floors, roomsX, roomsY⟩ := b
  simp only [Renderer.allocateBuilding]
  obtain ⟨hv, hi⟩ := buildingQuads_chain_lengths
    (floorQuadVerts (toRenderCoordinate bmin) (toRenderCoordinate bmax)
      ((abs (toRenderCoordinate bmax).y - abs (toRenderCoordinate bmin).y) / (floors : ℚ)))
    (wallXQuadVerts (toRenderCoordinate bmin) (toRenderCoordinate bmax)
      (((toRenderCoordinate bmax).x - (toRenderCoordinate bmin).x) / (roomsX : ℚ)))
    (wallYQuadVerts (toRenderCoordinate bmin) (toRenderCoordinate bmax)
      (((toRenderCoordinate bmax).z - (toRenderCoordinate bmin).z) / (roomsY : ℚ)))
    (fun i => rfl) (fun i => rfl) (fun i => rfl)
    (floors - 1) (roomsX - 1) (roomsY - 1)
    (buildingBaseVertices (toRenderCoordinate bmin) (toRenderCoordinate bmax))
    buildingBaseIndices 7
  have hbi : buildingBaseIndices.length = 36 := rfl
  have hbv : (buildingBaseVertices (toRenderCoordinate bmin)
      (toRenderCoordinate bmax)).length = 24 := rfl
  rw [hbi] at hi
  rw [hbv] at hv
  refine ⟨?_, ?_, ?_⟩
  · exact hi
  · exact hi
  · rw [hv]; omega

/-- Witness for C10: a building with two floors, three rooms along x
and one along y has three interior quads, so fifty-four indices and
one hundred twenty vertex components. -/
theorem building_allocate_counts_witness :
    (Renderer.allocateBuilding ⟨⟨0, 0, 0⟩, ⟨10, 20, 6⟩, 2, 3, 1⟩).ibo_size = 54 ∧
    (Renderer.allocateBuilding ⟨⟨0, 0, 0⟩, ⟨10, 20, 6⟩, 2, 3, 1⟩).vertices.length = 60 := by
  obtain ⟨h1, h2, h3⟩ := building_allocate_counts ⟨⟨0, 0, 0⟩, ⟨10, 20, 6⟩, 2, 3, 1⟩
    (by decide) (by decide) (by decide)
  refine ⟨?_, ?_⟩
  · rw [h1]; decide
  · rw [h3]; decide

end NetSimulyzer
